import Mathlib

/-!
Verification development for the migration_verifier repository.

The repository moves tabular data between storage backends through a
uniform provider abstraction (`src/core/providers/*.py`) and layers three
operations on top of it (`src/core/migration.py`): full-table migration in
bounded chunks (`migrate_table`), data-quality inspection
(`check_table_quality`) and duplicate-removing rewriting
(`apply_corrections`).

The shallow embedding below represents a recordset (pandas DataFrame) as a
list of rows, a row being the list of its cell values; rows are compared by
exact equality across all columns, which is the row-equality notion used by
`DataFrame.duplicated` and `DataFrame.drop_duplicates`.  Backend state is an
association list from table name (or object key) to the table's rows, and
each provider operation is translated into a pure function from that state
(plus oracles for the outcomes of the external backend calls) to results.
-/

namespace MigrationVerifier

/-- A row of a tabular recordset: the list of its cell values.  Rows are
compared by exact equality across all columns. -/
abbrev Row := List String

/-- A recordset (pandas DataFrame): the ordered list of its rows. -/
abbrev Table := List Row

/-- The `if_exists` write mode of `write_table`. -/
inductive WriteMode
  | append
  | replace
deriving DecidableEq, Repr

/-- Backend error kinds raised by provider operations. -/
inductive DbError
  /-- SQL statement refers to a missing table. -/
  | noSuchTable
  /-- botocore `ClientError` (for example a missing S3 object). -/
  | clientError
  /-- malformed filter predicate (`QueryError`). -/
  | malformed
  /-- google-cloud-bigquery `NotFound` raised by `client.get_table`. -/
  | notFound
  /-- Python `ValueError` (missing required configuration). -/
  | valueError
  /-- network or authentication failure while connecting. -/
  | connectionError
deriving DecidableEq, Repr

/-- Backend storage state shared by the provider models: association list
from table name (object key) to the table's current rows. -/
abbrev Store := List (String × Table)

/-- Look a table up in the backend store. -/
def getTable (st : Store) (name : String) : Option Table :=
  (st.find? (fun p => decide (p.1 = name))).map Prod.snd

/-- Overwrite (or create) a table in the backend store. -/
def setTable (st : Store) (name : String) (df : Table) : Store :=
  (name, df) :: st.filter (fun p => decide (p.1 ≠ name))

/-- Remove a table from the backend store (`DROP TABLE IF EXISTS`). -/
def dropTable (st : Store) (name : String) : Store :=
  st.filter (fun p => decide (p.1 ≠ name))

/-! ### Migration orchestrator (`src/core/migration.py`, `migrate_table`)

`migrate_table` reads the whole source table, then writes it to the
destination: one append of the empty recordset when the source is empty
(so the destination table exists), one append of the whole table when it
fits one chunk, otherwise the loop `for i in range(0, len(df), chunk_size)`
appends the slices `df.iloc[i : i + chunk_size]`. -/

/-- The successive slices `df.iloc[i : i + cs]` produced by the loop
`for i in range(0, len(df), cs)`. -/
def chunkSplit (df : Table) (cs : Nat) : List Table :=
  if df = [] ∨ cs = 0 then []
  else df.take cs :: chunkSplit (df.drop cs) cs
termination_by df.length
decreasing_by
  rename_i h
  push_neg at h
  have hlen : df.length ≠ 0 := by
    simpa [List.length_eq_zero] using h.1
  simp only [List.length_drop]
  omega

/-- The sequence of `write_table` calls `migrate_table` issues on the
destination provider, each with its mode and its recordset, mirroring the
three code paths (empty source / single chunk / chunk loop). -/
def migrateWrites (df : Table) (cs : Nat) : List (WriteMode × Table) :=
  if df = [] then [(WriteMode.append, [])]
  else if df.length ≤ cs then [(WriteMode.append, df)]
  else (chunkSplit df cs).map (fun c => (WriteMode.append, c))

/-- Return value of `migrate_table`: `0` for an empty source, otherwise the
sum of the destination `write_table` return values, each of which is the
length of the recordset passed to it (see the per-provider write models). -/
def migrate_table (df : Table) (cs : Nat) : Nat :=
  if df = [] then 0
  else ((migrateWrites df cs).map (fun w => w.2.length)).sum

/-! ### Quality analyzer (`src/core/migration.py`, `check_table_quality`) -/

/-- The flags of `df.duplicated(keep="first")`: a row is flagged exactly
when it equals some earlier row; `seen` accumulates the rows already
passed. -/
def dupFlags : List Row → Table → List Bool
  | _, [] => []
  | seen, r :: rs => decide (r ∈ seen) :: dupFlags (r :: seen) rs

/-- The fields of the quality report relevant to the duplicate-count
contract (`rows` and `duplicates`); the per-column null counts and the
truncation heuristic of the report are independent of these fields. -/
structure QualityReport where
  rows : Nat
  duplicates : Nat
deriving DecidableEq, Repr

/-- `check_table_quality` on the recordset read from the provider: for an
empty table the report keeps `duplicates = 0`; otherwise `duplicates` is
`df.duplicated(keep="first").sum()`. -/
def check_table_quality (df : Table) : QualityReport :=
  if df = [] then { rows := df.length, duplicates := 0 }
  else { rows := df.length, duplicates := (dupFlags [] df).count true }

/-! ### Correction applier (`src/core/migration.py`, `apply_corrections`) -/

/-- Loop of `df.drop_duplicates(keep="first")`: keep a row exactly when it
has not occurred before; `seen` accumulates the rows already passed. -/
def dropDupsGo : List Row → Table → Table
  | _, [] => []
  | seen, r :: rs =>
    if r ∈ seen then dropDupsGo seen rs else r :: dropDupsGo (r :: seen) rs

/-- `df.drop_duplicates(keep="first")`. -/
def drop_duplicates (df : Table) : Table :=
  dropDupsGo [] df

/-- A provider call recorded by the `apply_corrections` trace. -/
inductive ProviderCall
  | deleteTable (name : String)
  | writeTable (name : String) (df : Table) (mode : WriteMode)
deriving DecidableEq, Repr

/-- `apply_corrections` on the recordset read from the provider: returns the
removed-row count together with the trace of provider calls made after the
read (nothing for an empty table; delete then replace-write of the
deduplicated recordset otherwise). -/
def apply_corrections (tableName : String) (df : Table) : Nat × List ProviderCall :=
  if df = [] then (0, [])
  else
    (df.length - (drop_duplicates df).length,
     [ProviderCall.deleteTable tableName,
      ProviderCall.writeTable tableName (drop_duplicates df) WriteMode.replace])

/-- Modelled from the spec (refinement reference): the subsequence keeping,
for each distinct row, its first occurrence, in the original relative
order — the spec's description of the rewritten table left by
`applyCorrections`. -/
def firstOccurrences : Table → Table
  | [] => []
  | r :: rs => r :: firstOccurrences (rs.filter (fun x => decide (x ≠ r)))
termination_by df => df.length
decreasing_by
  simp only [List.length_cons]
  exact Nat.lt_succ_of_le (List.length_filter_le _ _)

/-! ### Provider write models

Each provider's `write_table(table_name, df, if_exists)` is translated into
a pure function on the backend `Store`; external library calls (`to_sql`,
`load_table_from_dataframe`, `write_pandas`, `put_object`) are modelled by
their documented effect on the stored table. -/

/-- `SQLiteProvider.write_table`: `df.to_sql(name, engine, if_exists=mode)`
(append to the existing table or create it; replace drops and recreates),
then `return len(df)`. -/
def sqlite_write_table (st : Store) (name : String) (df : Table) (m : WriteMode) :
    Nat × Store :=
  match m with
  | WriteMode.replace => (df.length, setTable st name df)
  | WriteMode.append =>
    match getTable st name with
    | some old => (df.length, setTable st name (old ++ df))
    | none => (df.length, setTable st name df)

/-- `RedshiftProvider.write_table`: `df.to_sql(name, engine, if_exists=mode,
schema=schema)`, then `return len(df)` (the schema qualification is part of
the table name in this model). -/
def redshift_write_table (st : Store) (name : String) (df : Table) (m : WriteMode) :
    Nat × Store :=
  match m with
  | WriteMode.replace => (df.length, setTable st name df)
  | WriteMode.append =>
    match getTable st name with
    | some old => (df.length, setTable st name (old ++ df))
    | none => (df.length, setTable st name df)

/-- `S3Provider.write_table`: in append mode read the existing object
(`ClientError`, i.e. a missing object, gives an empty recordset), let
`out_df = pd.concat([existing, df]) if not existing.empty else df`, rewrite
the whole object with `out_df`, and `return len(df)`. -/
def s3_write_table (st : Store) (key : String) (df : Table) (m : WriteMode) :
    Nat × Store :=
  let existing : Table :=
    if m = WriteMode.append then
      match getTable st key with
      | some t => t
      | none => []
    else []
  let out : Table := if existing = [] then df else existing ++ df
  (df.length, setTable st key out)

/-- `SnowflakeProvider.write_table`: on replace `DROP TABLE IF EXISTS`; then
`CREATE TABLE IF NOT EXISTS` from the recordset's columns; then
`write_pandas` appends `df` and reports `nrows = len(df)`, which is
returned. -/
def snowflake_write_table (st : Store) (name : String) (df : Table) (m : WriteMode) :
    Nat × Store :=
  let st1 := if m = WriteMode.replace then dropTable st name else st
  let st2 := if (getTable st1 name).isNone then setTable st1 name [] else st1
  let old := (getTable st2 name).getD []
  (df.length, setTable st2 name (old ++ df))

/-- `BigQueryProvider.write_table`: in append mode the code first runs
`table = self.client.get_table(full)` — whose result is never used and
which raises `NotFound` when the table is absent; in replace mode it
deletes the table (errors swallowed); then `load_table_from_dataframe`
creates the table if absent and appends `df`, and `len(df)` is returned. -/
def bq_write_table (st : Store) (name : String) (df : Table) (m : WriteMode) :
    Except DbError (Nat × Store) :=
  match m with
  | WriteMode.append =>
    match getTable st name with
    | none => Except.error DbError.notFound
    | some old => Except.ok (df.length, setTable st name (old ++ df))
  | WriteMode.replace =>
    Except.ok (df.length, setTable (dropTable st name) name df)

/-- Destination effect of a `migrate_table` run: fold the issued writes over
the destination store with the destination provider's write model. -/
def runWrites (st : Store) (name : String) (ws : List (WriteMode × Table)) : Store :=
  ws.foldl (fun acc w => (sqlite_write_table acc name w.2 w.1).2) st

/-! ### Provider delete models (`delete_rows`, `delete_table`)

The backend's evaluation of a raw filter predicate is abstracted by an
oracle `pe : String → Except DbError (Row → Bool)`: parsing the predicate
either fails (`DbError.malformed`, the spec's `QueryError`) or yields a
row filter. -/

/-- The Python truthiness test `where_clause and where_clause.strip()`: a
clause is given when it is present and its whitespace-stripped form is
non-empty, i.e. it contains some non-whitespace character. -/
def whereGiven : Option String → Bool
  | none => false
  | some wc => wc.data.any (fun c => !c.isWhitespace)

/-- `SQLiteProvider.delete_rows`: build `DELETE FROM name [WHERE wc]` and
execute it inside a transaction, returning the statement's rowcount; no
exception is caught, so a parse failure of the predicate propagates. -/
def sqlite_delete_rows (pe : String → Except DbError (Row → Bool))
    (st : Store) (name : String) (w : Option String) :
    Except DbError (Nat × Store) :=
  match getTable st name with
  | none => Except.error DbError.noSuchTable
  | some df =>
    if whereGiven w then
      match pe (w.getD "") with
      | Except.error e => Except.error e
      | Except.ok p =>
        let kept := df.filter (fun r => !(p r))
        Except.ok (df.length - kept.length, setTable st name kept)
    else
      Except.ok (df.length, setTable st name [])

/-- `S3Provider.delete_rows`: read the object (a missing object raises
`ClientError`, uncaught); an empty recordset returns `0` with no write;
otherwise with a predicate, `df.query` selects the matching rows and they
are dropped — but a failing `df.query` is caught and the code keeps
`df2 = df` ("if query fails, do not modify"); without a predicate all rows
are dropped; the object is rewritten with `df2` and `before - len(df2)` is
returned. -/
def s3_delete_rows (pe : String → Except DbError (Row → Bool))
    (st : Store) (key : String) (w : Option String) :
    Except DbError (Nat × Store) :=
  match getTable st key with
  | none => Except.error DbError.clientError
  | some df =>
    if df = [] then Except.ok (0, st)
    else
      let df2 : Table :=
        if whereGiven w then
          match pe (w.getD "") with
          | Except.ok p => df.filter (fun r => !(p r))
          | Except.error _ => df
        else []
      Except.ok (df.length - df2.length, setTable st key df2)

/-! ### Provider connection state (`SQLiteProvider`, `S3Provider`)

The provider object's own fields are modelled as a record; the outcomes of
the external calls (`sqlite3.connect`, the `SELECT 1` probe,
`Path(...).touch`, `boto3` `list_buckets`) are oracle booleans. -/

/-- Fields of a `SQLiteProvider` instance: the credentials dict passed to
the constructor, the `db_path` read from it, the connection and engine
handles, and the `_connected` flag. -/
structure SQLiteState where
  credentials : List (String × String)
  db_path : Option String
  conn : Option Unit
  engine : Option Unit
  connected : Bool
deriving DecidableEq, Repr

/-- `SQLiteProvider.__init__`: store the credentials, read `db_path` from
them, leave the connection and engine unset. -/
def sqlite_init (credentials : List (String × String)) : SQLiteState :=
  { credentials := credentials
    db_path := credentials.lookup "db_path"
    conn := none
    engine := none
    connected := false }

/-- `SQLiteProvider.connect`: raise `ValueError` when `db_path` is missing;
otherwise `sqlite3.connect` and `create_engine` (outcome `sysOk`), setting
the handles and `_connected` on success. -/
def sqlite_connect (sysOk : Bool) (s : SQLiteState) : Except DbError SQLiteState :=
  match s.db_path with
  | none => Except.error DbError.valueError
  | some _ =>
    if sysOk then
      Except.ok { s with conn := some (), engine := some (), connected := true }
    else Except.error DbError.connectionError

/-- `SQLiteProvider.test_connection`: `try: connect(); SELECT 1; return
True except Exception: return False` — the probe outcome is `probeOk`; on a
failure after a successful connect the mutated state is kept. -/
def sqlite_test_connection (sysOk probeOk : Bool) (s : SQLiteState) :
    Bool × SQLiteState :=
  match sqlite_connect sysOk s with
  | Except.error _ => (false, s)
  | Except.ok s' => if probeOk then (true, s') else (false, s')

/-- `SQLiteProvider.has_permissions`: for `read` and `write` the file is
touched (outcome `touchOk`); any other action maps to `True`. -/
def sqlite_has_permissions (touchOk : Bool) (actions : List String) (s : SQLiteState) :
    List (String × Bool) × SQLiteState :=
  (actions.map (fun act =>
    (act, if act = "read" ∨ act = "write" then touchOk else true)), s)

/-- `SQLiteProvider.list_datasets`: the constant `["main"]`. -/
def sqlite_list_datasets (s : SQLiteState) : List String × SQLiteState :=
  (["main"], s)

/-- `SQLiteProvider.list_tables`: the table names from `sqlite_master`
ordered by name. -/
def sqlite_list_tables (store : Store) (s : SQLiteState) :
    List String × SQLiteState :=
  ((store.map Prod.fst).mergeSort (fun a b => decide (a ≤ b)), s)

/-- `SQLiteProvider.read_table`: `SELECT * FROM name` with `LIMIT` appended
only when the limit argument is truthy and positive; a missing table makes
the query fail. -/
def sqlite_read_table (store : Store) (name : String) (limit : Option Nat)
    (s : SQLiteState) : Except DbError Table × SQLiteState :=
  (match getTable store name with
   | none => Except.error DbError.noSuchTable
   | some df =>
     Except.ok (match limit with
       | some n => if 0 < n then df.take n else df
       | none => df), s)

/-- `SQLiteProvider.write_table` as an operation on the provider object:
the store-level write; the provider fields are untouched. -/
def sqlite_write_table_op (store : Store) (name : String) (df : Table)
    (m : WriteMode) (s : SQLiteState) : (Nat × Store) × SQLiteState :=
  (sqlite_write_table store name df m, s)

/-- `SQLiteProvider.delete_rows` as an operation on the provider object. -/
def sqlite_delete_rows_op (pe : String → Except DbError (Row → Bool))
    (store : Store) (name : String) (w : Option String) (s : SQLiteState) :
    Except DbError (Nat × Store) × SQLiteState :=
  (sqlite_delete_rows pe store name w, s)

/-- `SQLiteProvider.delete_table` as an operation on the provider object:
`DROP TABLE IF EXISTS name`. -/
def sqlite_delete_table_op (store : Store) (name : String) (s : SQLiteState) :
    Store × SQLiteState :=
  (dropTable store name, s)

/-- `SQLiteProvider.close`: close the connection handle if set and clear
`_connected` in the `finally` block. -/
def sqlite_close (s : SQLiteState) : Unit × SQLiteState :=
  ((), { s with connected := false })

/-- Fields of an `S3Provider` instance. -/
structure S3State where
  credentials : List (String × String)
  client : Option Unit
  connected : Bool
deriving DecidableEq, Repr

/-- `S3Provider.connect`: `boto3.client(...)` is assigned first; the
`list_buckets` smoke test (outcome `listOk`) may then fail, in which case
the client field stays assigned and `_connected` keeps its old value. -/
def s3_connect (listOk : Bool) (s : S3State) : Option DbError × S3State :=
  let s1 := { s with client := some () }
  if listOk then (none, { s1 with connected := true })
  else (some DbError.connectionError, s1)

/-- `S3Provider.test_connection`: `try: connect(); return True except
Exception: return False`. -/
def s3_test_connection (listOk : Bool) (s : S3State) : Bool × S3State :=
  match s3_connect listOk s with
  | (none, s') => (true, s')
  | (some _, s') => (false, s')

/-! ### Structural lemmas about the chunk loop -/

theorem chunkSplit_nil (cs : Nat) : chunkSplit [] cs = [] := by
  rw [chunkSplit]
  simp

theorem chunkSplit_flatten (df : Table) (cs : Nat) :
    (chunkSplit df cs).flatten = if cs = 0 then [] else df := by
  induction df, cs using chunkSplit.induct with
  | case1 df cs h =>
    rw [chunkSplit, if_pos h]
    rcases h with h | h
    · simp [h]
    · simp [h]
  | case2 df cs h ih =>
    push_neg at h
    rw [chunkSplit, if_neg (by push_neg; exact h)]
    simp [List.flatten_cons, ih, h.2]

theorem chunkSplit_length (df : Table) (cs : Nat) (hcs : cs ≠ 0) (hdf : df ≠ []) :
    (chunkSplit df cs).length = (df.length - 1) / cs + 1 := by
  induction df, cs using chunkSplit.induct with
  | case1 df cs h =>
    rcases h with h | h
    · exact absurd h hdf
    · exact absurd h hcs
  | case2 df cs h ih =>
    push_neg at h
    rw [chunkSplit, if_neg (by push_neg; exact h)]
    by_cases hrest : df.drop cs = []
    · have hle : df.length ≤ cs := by
        have := List.length_eq_zero.mpr hrest
        simp only [List.length_drop] at this
        omega
      have h1 : df.length - 1 < cs := by
        have : df.length ≠ 0 := by simpa [List.length_eq_zero] using h.1
        omega
      simp [chunkSplit, hrest, Nat.div_eq_of_lt h1]
    · have hlt : cs < df.length := by
        have h2 : df.length - cs ≠ 0 := by
          intro hc
          exact hrest (List.length_eq_zero.mp (by simp [List.length_drop, hc]))
        omega
      rw [List.length_cons, ih hcs hrest]
      have h3 : df.length - 1 = (df.length - cs - 1) + cs := by omega
      rw [List.length_drop, h3, Nat.add_div_right _ (Nat.pos_of_ne_zero hcs)]

theorem chunkSplit_ne_nil (df : Table) (cs : Nat) (hcs : cs ≠ 0) (hdf : df ≠ []) :
    chunkSplit df cs ≠ [] := by
  rw [chunkSplit, if_neg (by push_neg; exact ⟨hdf, hcs⟩)]
  simp

theorem chunkSplit_mem (df : Table) (cs : Nat) (hcs : cs ≠ 0)
    (c : Table) (hc : c ∈ chunkSplit df cs) : c ≠ [] ∧ c.length ≤ cs := by
  induction df, cs using chunkSplit.induct with
  | case1 df cs h =>
    rw [chunkSplit, if_pos h] at hc
    simp at hc
  | case2 df cs h ih =>
    push_neg at h
    rw [chunkSplit, if_neg (by push_neg; exact h)] at hc
    rcases List.mem_cons.mp hc with hc | hc
    · subst hc
      constructor
      · have : df.length ≠ 0 := by simpa [List.length_eq_zero] using h.1
        intro hcon
        have := List.length_eq_zero.mpr hcon
        simp only [List.length_take] at this
        omega
      · simp [List.length_take]
    · exact ih hcs hc

theorem chunkSplit_dropLast (df : Table) (cs : Nat) (hcs : cs ≠ 0)
    (c : Table) (hc : c ∈ (chunkSplit df cs).dropLast) : c.length = cs := by
  induction df, cs using chunkSplit.induct with
  | case1 df cs h =>
    rw [chunkSplit, if_pos h] at hc
    simp at hc
  | case2 df cs h ih =>
    push_neg at h
    rw [chunkSplit, if_neg (by push_neg; exact h)] at hc
    by_cases hrest : df.drop cs = []
    · rw [chunkSplit, if_pos (Or.inl hrest)] at hc
      simp at hc
    · rw [List.dropLast_cons_of_ne_nil (chunkSplit_ne_nil _ _ hcs hrest)] at hc
      rcases List.mem_cons.mp hc with hc | hc
      · subst hc
        have hlt : cs ≤ df.length := by
          by_contra hcon
          push_neg at hcon
          exact hrest (List.drop_eq_nil_of_le (Nat.le_of_lt hcon))
        simp [List.length_take, Nat.min_eq_left hlt]
      · exact ih hcs hc

theorem migrateWrites_eq_chunks (df : Table) (cs : Nat) (hdf : df ≠ []) (hcs : cs ≠ 0) :
    migrateWrites df cs = (chunkSplit df cs).map (fun c => (WriteMode.append, c)) := by
  rw [migrateWrites, if_neg hdf]
  by_cases hle : df.length ≤ cs
  · rw [if_pos hle, chunkSplit, if_neg (by push_neg; exact ⟨hdf, hcs⟩),
      List.take_of_length_le hle, List.drop_eq_nil_of_le hle, chunkSplit_nil]
    rfl
  · rw [if_neg hle]

theorem migrateWrites_snd (df : Table) (cs : Nat) (hdf : df ≠ []) (hcs : cs ≠ 0) :
    (migrateWrites df cs).map Prod.snd = chunkSplit df cs := by
  rw [migrateWrites_eq_chunks df cs hdf hcs, List.map_map]
  simp

/-- Structure of the 12,000-row scenario: the issued chunk sizes and the
returned total, derived from the general chunking lemmas. -/
theorem migrate_12000_5000 :
    (migrateWrites (List.replicate 12000 ([""] : Row)) 5000).map (fun w => w.2.length)
      = [5000, 5000, 2000] ∧
    migrate_table (List.replicate 12000 ([""] : Row)) 5000 = 12000 := by
  have hlen : (List.replicate 12000 ([""] : Row)).length = 12000 := by
    rw [List.length_replicate]
  have hdf : List.replicate 12000 ([""] : Row) ≠ [] := by
    intro hcon
    have hlen0 := congrArg List.length hcon
    rw [hlen] at hlen0
    exact absurd hlen0 (by norm_num)
  have hcs : (5000 : Nat) ≠ 0 := by norm_num
  have hcount : (chunkSplit (List.replicate 12000 ([""] : Row)) 5000).length = 3 := by
    rw [chunkSplit_length _ 5000 hcs hdf, hlen]
  obtain ⟨a, b, c, habc⟩ := List.length_eq_three.mp hcount
  have hdrop : (chunkSplit (List.replicate 12000 ([""] : Row)) 5000).dropLast = [a, b] := by
    rw [habc]
    rfl
  have ha : a.length = 5000 :=
    chunkSplit_dropLast _ 5000 hcs a (by rw [hdrop]; simp)
  have hb : b.length = 5000 :=
    chunkSplit_dropLast _ 5000 hcs b (by rw [hdrop]; simp)
  have hsum : a.length + b.length + c.length = 12000 := by
    have hfl := chunkSplit_flatten (List.replicate 12000 ([""] : Row)) 5000
    rw [if_neg hcs] at hfl
    have hlenf := congrArg List.length hfl
    rw [List.length_flatten, habc, hlen] at hlenf
    simp only [List.map_cons, List.map_nil, List.sum_cons, List.sum_nil] at hlenf
    omega
  have hc : c.length = 2000 := by omega
  have hmap : (migrateWrites (List.replicate 12000 ([""] : Row)) 5000).map
      (fun w => w.2.length) = [5000, 5000, 2000] := by
    have hcomp : (migrateWrites (List.replicate 12000 ([""] : Row)) 5000).map
        (fun w => w.2.length)
        = (chunkSplit (List.replicate 12000 ([""] : Row)) 5000).map List.length := by
      rw [migrateWrites_eq_chunks _ 5000 hdf hcs, List.map_map]
      rfl
    rw [hcomp, habc]
    simp [ha, hb, hc]
  refine ⟨hmap, ?_⟩
  rw [migrate_table, if_neg hdf, hmap]
  norm_num

/-! ### Lemmas about duplicate counting and deduplication -/

theorem card_insert_eq_card_erase_add_one (a : Row) (s : Finset Row) :
    (insert a s).card = (s.erase a).card + 1 := by
  by_cases h : a ∈ s
  · rw [Finset.insert_eq_self.mpr h]
    exact (Finset.card_erase_add_one h).symm
  · rw [Finset.card_insert_of_not_mem h, Finset.erase_eq_of_not_mem h]

theorem sdiff_insert_eq_erase_sdiff (s t : Finset Row) (a : Row) :
    s \ insert a t = (s \ t).erase a := by
  ext x
  simp only [Finset.mem_sdiff, Finset.mem_insert, Finset.mem_erase]
  tauto

theorem dupFlags_count (seen df : List Row) :
    (dupFlags seen df).count true + (df.toFinset \ seen.toFinset).card = df.length := by
  induction df generalizing seen with
  | nil => simp [dupFlags]
  | cons r rs ih =>
    by_cases h : r ∈ seen
    · have h1 : (dupFlags seen (r :: rs)).count true
          = (dupFlags (r :: seen) rs).count true + 1 := by
        simp [dupFlags, h, List.count_cons]
      have h2 : (r :: seen).toFinset = seen.toFinset := by
        simp [List.toFinset_cons, Finset.insert_eq_self.mpr (List.mem_toFinset.mpr h)]
      have h3 : (r :: rs).toFinset \ seen.toFinset = rs.toFinset \ seen.toFinset := by
        ext x
        simp only [List.toFinset_cons, Finset.mem_sdiff, Finset.mem_insert,
          List.mem_toFinset]
        constructor
        · rintro ⟨hx | hx, hx2⟩
          · exact absurd (hx ▸ h) hx2
          · exact ⟨hx, hx2⟩
        · rintro ⟨hx, hx2⟩; exact ⟨Or.inr hx, hx2⟩
      have h4 := ih (r :: seen)
      rw [h2] at h4
      rw [h1, h3, List.length_cons]
      omega
    · have h1 : (dupFlags seen (r :: rs)).count true
          = (dupFlags (r :: seen) rs).count true := by
        simp [dupFlags, h, List.count_cons]
      have hrs : r ∉ seen.toFinset := fun hc => h (List.mem_toFinset.mp hc)
      have h3 : (r :: rs).toFinset \ seen.toFinset
          = insert r (rs.toFinset \ seen.toFinset) := by
        rw [List.toFinset_cons, Finset.insert_sdiff_of_not_mem _ hrs]
      have h4 : rs.toFinset \ (r :: seen).toFinset
          = (rs.toFinset \ seen.toFinset).erase r := by
        rw [List.toFinset_cons]
        exact sdiff_insert_eq_erase_sdiff _ _ _
      have h5 := ih (r :: seen)
      rw [h4] at h5
      rw [h1, h3, List.length_cons, card_insert_eq_card_erase_add_one]
      omega

/-- The `duplicates` field of the quality report is the row count minus the
number of distinct rows. -/
theorem duplicates_eq (df : Table) :
    (check_table_quality df).duplicates = df.length - df.toFinset.card := by
  rw [check_table_quality]
  by_cases h : df = []
  · simp [h]
  · rw [if_neg h]
    have h1 := dupFlags_count [] df
    simp only [List.toFinset_nil, Finset.sdiff_empty] at h1
    simp only []
    omega

theorem mem_dropDupsGo (seen df : List Row) (x : Row) :
    x ∈ dropDupsGo seen df ↔ x ∈ df ∧ x ∉ seen := by
  induction df generalizing seen with
  | nil => simp [dropDupsGo]
  | cons r rs ih =>
    by_cases h : r ∈ seen
    · rw [dropDupsGo, if_pos h, ih]
      constructor
      · rintro ⟨h1, h2⟩; exact ⟨List.mem_cons_of_mem _ h1, h2⟩
      · rintro ⟨h1, h2⟩
        rcases List.mem_cons.mp h1 with h1 | h1
        · exact absurd (h1 ▸ h) h2
        · exact ⟨h1, h2⟩
    · rw [dropDupsGo, if_neg h]
      simp only [List.mem_cons, ih]
      constructor
      · rintro (rfl | ⟨h1, h2⟩)
        · exact ⟨Or.inl rfl, h⟩
        · exact ⟨Or.inr h1, fun hc => h2 (Or.inr hc)⟩
      · rintro ⟨h1 | h1, h2⟩
        · exact Or.inl h1
        · by_cases hx : x = r
          · exact Or.inl hx
          · exact Or.inr ⟨h1, fun hc => hc.elim hx h2⟩

theorem nodup_dropDupsGo (seen df : List Row) : (dropDupsGo seen df).Nodup := by
  induction df generalizing seen with
  | nil => simp [dropDupsGo]
  | cons r rs ih =>
    by_cases h : r ∈ seen
    · rw [dropDupsGo, if_pos h]; exact ih seen
    · rw [dropDupsGo, if_neg h]
      refine List.nodup_cons.mpr ⟨fun hc => ?_, ih (r :: seen)⟩
      exact ((mem_dropDupsGo _ _ _).mp hc).2 (List.mem_cons_self r seen)

theorem dropDupsGo_eq_firstOccurrences (seen df : List Row) :
    dropDupsGo seen df = firstOccurrences (df.filter (fun r => decide (r ∉ seen))) := by
  induction df generalizing seen with
  | nil => simp [dropDupsGo, firstOccurrences]
  | cons r rs ih =>
    by_cases h : r ∈ seen
    · rw [dropDupsGo, if_pos h, List.filter_cons_of_neg (by simpa using h)]
      exact ih seen
    · rw [dropDupsGo, if_neg h, List.filter_cons_of_pos (by simpa using h),
        firstOccurrences, ih (r :: seen), List.filter_filter]
      have hfil : List.filter (fun x => decide (x ∉ r :: seen)) rs
          = List.filter (fun a => decide (a ≠ r) && decide (a ∉ seen)) rs := by
        apply List.filter_congr
        intro x _
        by_cases hx : x = r
        · simp [hx]
        · by_cases hxs : x ∈ seen <;> simp [hx, hxs, List.mem_cons]
      rw [hfil]

/-- `drop_duplicates` keeps exactly the first occurrence of every distinct
row, in the original relative order. -/
theorem drop_duplicates_eq_firstOccurrences (df : Table) :
    drop_duplicates df = firstOccurrences df := by
  rw [drop_duplicates, dropDupsGo_eq_firstOccurrences]
  congr 1
  apply List.filter_eq_self.mpr
  intro a _
  simp

theorem drop_duplicates_toFinset (df : Table) :
    (drop_duplicates df).toFinset = df.toFinset := by
  ext x
  simp [drop_duplicates, List.mem_toFinset, mem_dropDupsGo]

theorem drop_duplicates_length (df : Table) :
    (drop_duplicates df).length = df.toFinset.card := by
  have h : (drop_duplicates df).Nodup := by
    rw [drop_duplicates]
    exact nodup_dropDupsGo [] df
  rw [← drop_duplicates_toFinset]
  exact (List.toFinset_card_of_nodup h).symm

theorem dropLast_map_len {α β : Type} (f : α → β) (l : List α) :
    (l.map f).dropLast = l.dropLast.map f := by
  induction l with
  | nil => rfl
  | cons a t ih =>
    cases t with
    | nil => rfl
    | cons b t2 =>
      have h1 : (a :: b :: t2).dropLast = a :: (b :: t2).dropLast :=
        List.dropLast_cons_of_ne_nil (by simp)
      have h2 : (f a :: f b :: List.map f t2).dropLast
          = f a :: (f b :: List.map f t2).dropLast :=
        List.dropLast_cons_of_ne_nil (by simp)
      simp only [List.map_cons]
      rw [h1, h2, List.map_cons]
      simp only [List.map_cons] at ih
      rw [ih]

theorem getTable_setTable (st : Store) (name : String) (df : Table) :
    getTable (setTable st name df) name = some df := by
  simp [getTable, setTable, List.find?]

/-! ### Claim theorems -/

/-- C1: For every non-empty source table and positive chunk size,
`migrate_table` returns the source row count regardless of the chunk size;
it issues `ceil(N / chunkSize)` sequential append-mode writes whose chunks,
in order, partition the source rows, each chunk of size `chunkSize` except
a possibly smaller (but non-empty) final chunk; in particular a 12,000-row
table with `chunkSize = 5000` issues exactly 3 destination writes of 5000,
5000 and 2000 rows and returns 12000. -/
theorem migrate_chunking_C1 (df : Table) (cs : Nat) (hdf : df ≠ []) (hcs : 0 < cs) :
    migrate_table df cs = df.length ∧
    (migrateWrites df cs).length = (df.length + cs - 1) / cs ∧
    (∀ w ∈ migrateWrites df cs, w.1 = WriteMode.append) ∧
    ((migrateWrites df cs).map Prod.snd).flatten = df ∧
    (∀ c ∈ ((migrateWrites df cs).map Prod.snd).dropLast, c.length = cs) ∧
    (∀ c ∈ (migrateWrites df cs).map Prod.snd, c ≠ [] ∧ c.length ≤ cs) ∧
    (migrateWrites (List.replicate 12000 ([""] : Row)) 5000).map (fun w => w.2.length)
      = [5000, 5000, 2000] ∧
    migrate_table (List.replicate 12000 ([""] : Row)) 5000 = 12000 := by
  have hcs' : cs ≠ 0 := Nat.pos_iff_ne_zero.mp hcs
  have hsnd := migrateWrites_snd df cs hdf hcs'
  refine ⟨?_, ?_, ?_, ?_, ?_, ?_, migrate_12000_5000.1, migrate_12000_5000.2⟩
  · rw [migrate_table, if_neg hdf]
    have hcomp : (migrateWrites df cs).map (fun w => w.2.length)
        = ((migrateWrites df cs).map Prod.snd).map List.length := by
      rw [List.map_map]
      rfl
    rw [hcomp, hsnd, ← List.length_flatten, chunkSplit_flatten, if_neg hcs']
  · have h1 : (migrateWrites df cs).length = (chunkSplit df cs).length := by
      rw [migrateWrites_eq_chunks df cs hdf hcs', List.length_map]
    rw [h1, chunkSplit_length df cs hcs' hdf]
    have hn : df.length ≠ 0 := by simpa [List.length_eq_zero] using hdf
    have h2 : df.length + cs - 1 = (df.length - 1) + cs := by omega
    rw [h2, Nat.add_div_right _ hcs]
  · intro w hw
    rw [migrateWrites_eq_chunks df cs hdf hcs'] at hw
    obtain ⟨c, _, rfl⟩ := List.mem_map.mp hw
    rfl
  · rw [hsnd, chunkSplit_flatten, if_neg hcs']
  · intro c hc
    rw [hsnd] at hc
    exact chunkSplit_dropLast df cs hcs' c hc
  · intro c hc
    rw [hsnd] at hc
    exact chunkSplit_mem df cs hcs' c hc

theorem migrate_chunking_C1_witness :
    ([["a"], ["b"], ["c"]] : Table) ≠ [] ∧ 0 < 2 ∧
    migrate_table [["a"], ["b"], ["c"]] 2 = ([["a"], ["b"], ["c"]] : Table).length :=
  ⟨by decide, by decide,
    (migrate_chunking_C1 [["a"], ["b"], ["c"]] 2 (by decide) (by decide)).1⟩

/-- C2: For every empty source table, `migrate_table` issues exactly one
destination write — an empty recordset in append mode — returns `0`, and
the destination table exists afterward (under the destination's
create-if-absent write semantics). -/
theorem migrate_empty_C2 (cs : Nat) (st : Store) (name : String) :
    migrateWrites [] cs = [(WriteMode.append, [])] ∧
    migrate_table [] cs = 0 ∧
    (getTable (runWrites st name (migrateWrites [] cs)) name).isSome = true := by
  refine ⟨rfl, rfl, ?_⟩
  cases hg : getTable st name with
  | some old =>
    simp [migrateWrites, runWrites, sqlite_write_table, hg, getTable_setTable]
  | none =>
    simp [migrateWrites, runWrites, sqlite_write_table, hg, getTable_setTable]

/-- C3: The `duplicates` field computed by `check_table_quality` equals the
row count minus the number of distinct rows (rows compared by exact
equality across all columns), and the count is invariant under any
permutation of the input rows. -/
theorem duplicates_distinct_C3 (df dg : Table) (h : df.Perm dg) :
    (check_table_quality df).duplicates = df.length - df.toFinset.card ∧
    (check_table_quality df).duplicates = (check_table_quality dg).duplicates := by
  refine ⟨duplicates_eq df, ?_⟩
  rw [duplicates_eq df, duplicates_eq dg, h.length_eq,
    List.toFinset_eq_of_perm df dg h]

theorem duplicates_distinct_C3_witness :
    ([["a"], ["b"], ["a"]] : Table).Perm [["a"], ["a"], ["b"]] ∧
    (check_table_quality [["a"], ["b"], ["a"]]).duplicates
      = (check_table_quality [["a"], ["a"], ["b"]]).duplicates :=
  ⟨by decide, (duplicates_distinct_C3 _ _ (by decide)).2⟩

/-- C4 (counterexample): on the table `[A, B, A, C, B]` the claim says
`apply_corrections` returns `3`; the code returns
`before - len(df2) = 5 - 3 = 2`. -/
theorem apply_corrections_C4_counterexample :
    (apply_corrections "t" [["A"], ["B"], ["A"], ["C"], ["B"]]).1 = 2 ∧
    ¬ (apply_corrections "t" [["A"], ["B"], ["A"], ["C"], ["B"]]).1 = 3 := by
  decide

/-- C4 (amended): for every non-empty table, `apply_corrections` removes
exactly the number of rows that `check_table_quality` reports as
`duplicates` and returns that count; the rewritten table consists of the
first occurrence of each distinct row in their original relative order, so
`check_table_quality` on the result reports `duplicates = 0`; concretely,
on rows `[A, B, A, C, B]` the analyzer reports `duplicates = 2`,
`apply_corrections` returns `2` and leaves `[A, B, C]` in that order. -/
theorem apply_corrections_C4_amended (name : String) (df : Table) (hdf : df ≠ []) :
    (apply_corrections name df).1 = (check_table_quality df).duplicates ∧
    (drop_duplicates df).length = df.length - (check_table_quality df).duplicates ∧
    (apply_corrections name df).2
      = [ProviderCall.deleteTable name,
         ProviderCall.writeTable name (firstOccurrences df) WriteMode.replace] ∧
    (check_table_quality (drop_duplicates df)).duplicates = 0 ∧
    (check_table_quality [["A"], ["B"], ["A"], ["C"], ["B"]]).duplicates = 2 ∧
    (apply_corrections "t" [["A"], ["B"], ["A"], ["C"], ["B"]]).1 = 2 ∧
    drop_duplicates [["A"], ["B"], ["A"], ["C"], ["B"]] = [["A"], ["B"], ["C"]] := by
  have hcard := List.toFinset_card_le df
  refine ⟨?_, ?_, ?_, ?_, by decide, by decide, by decide⟩
  · simp only [apply_corrections, if_neg hdf]
    rw [duplicates_eq, drop_duplicates_length]
  · rw [duplicates_eq, drop_duplicates_length]
    omega
  · simp only [apply_corrections, if_neg hdf]
    rw [drop_duplicates_eq_firstOccurrences]
  · rw [duplicates_eq, drop_duplicates_length, drop_duplicates_toFinset]
    omega

theorem apply_corrections_C4_amended_witness :
    ([["A"], ["B"], ["A"], ["C"], ["B"]] : Table) ≠ [] ∧
    (apply_corrections "t" [["A"], ["B"], ["A"], ["C"], ["B"]]).1
      = (check_table_quality [["A"], ["B"], ["A"], ["C"], ["B"]]).duplicates :=
  ⟨by decide, (apply_corrections_C4_amended "t" _ (by decide)).1⟩

/-- C5 (code bug): on an absent target table the BigQuery provider's append
path runs `table = self.client.get_table(full)` — a dead assignment whose
only effect is to raise `NotFound` — so the write fails instead of creating
the table; the replace path and the other providers do create the absent
target. -/
theorem bq_write_absent_C5_bug :
    bq_write_table [] "t" [["x"]] WriteMode.append = Except.error DbError.notFound ∧
    bq_write_table [] "t" [["x"]] WriteMode.replace
      = Except.ok (1, [("t", [["x"]])]) ∧
    sqlite_write_table [] "t" [["x"]] WriteMode.append = (1, [("t", [["x"]])]) ∧
    redshift_write_table [] "t" [["x"]] WriteMode.append = (1, [("t", [["x"]])]) ∧
    s3_write_table [] "t" [["x"]] WriteMode.append = (1, [("t", [["x"]])]) ∧
    snowflake_write_table [] "t" [["x"]] WriteMode.append = (1, [("t", [["x"]])]) :=
  ⟨rfl, rfl, rfl, rfl, rfl, rfl⟩

/-- C6: Every provider's `write_table`, for every input recordset and both
modes, returns the row count of the input recordset, not the resulting
table size; in particular the S3 append mode rewrites the object as
existing rows concatenated with the new rows yet still returns only the
input count. -/
theorem write_returns_input_C6 (st : Store) (name : String) (df : Table) (m : WriteMode) :
    (sqlite_write_table st name df m).1 = df.length ∧
    (redshift_write_table st name df m).1 = df.length ∧
    (snowflake_write_table st name df m).1 = df.length ∧
    (s3_write_table st name df m).1 = df.length ∧
    (∀ n st2, bq_write_table st name df m = Except.ok (n, st2) → n = df.length) ∧
    (∀ old, getTable st name = some old →
      getTable (s3_write_table st name df WriteMode.append).2 name
        = some (old ++ df)) := by
  refine ⟨?_, ?_, ?_, ?_, ?_, ?_⟩
  · cases m with
    | append => cases hg : getTable st name <;> simp [sqlite_write_table, hg]
    | replace => simp [sqlite_write_table]
  · cases m with
    | append => cases hg : getTable st name <;> simp [redshift_write_table, hg]
    | replace => simp [redshift_write_table]
  · simp [snowflake_write_table]
  · simp [s3_write_table]
  · intro n st2 h
    cases m with
    | append =>
      cases hg : getTable st name with
      | none => simp [bq_write_table, hg] at h
      | some old =>
        simp [bq_write_table, hg] at h
        omega
    | replace =>
      simp [bq_write_table] at h
      omega
  · intro old hold
    by_cases hol : old = []
    · subst hol
      simp [s3_write_table, hold, getTable_setTable]
    · simp [s3_write_table, hold, hol, getTable_setTable]

theorem write_returns_input_C6_witness :
    getTable [("t", [["x"]])] "t" = some [["x"]] ∧
    getTable (s3_write_table [("t", [["x"]])] "t" [["y"]] WriteMode.append).2 "t"
      = some ([["x"]] ++ [["y"]]) :=
  ⟨rfl, (write_returns_input_C6 [("t", [["x"]])] "t" [["y"]]
    WriteMode.append).2.2.2.2.2 [["x"]] rfl⟩

/-- C7: `test_connection` is a total boolean function of the connect and
probe outcomes — it never propagates a failure — and it returns `true`
exactly when every step of the probe succeeds, hence `false` whenever the
underlying connect or round-trip probe fails for any reason. -/
theorem test_connection_C7 (sysOk probeOk listOk : Bool) (s : SQLiteState) (t : S3State) :
    ((sqlite_test_connection sysOk probeOk s).1 = true ↔
      (s.db_path.isSome = true ∧ sysOk = true ∧ probeOk = true)) ∧
    ((s3_test_connection listOk t).1 = true ↔ listOk = true) := by
  constructor
  · cases hdb : s.db_path with
    | none => simp [sqlite_test_connection, sqlite_connect, hdb]
    | some p =>
      cases sysOk <;> cases probeOk <;>
        simp [sqlite_test_connection, sqlite_connect, hdb]
  · cases listOk <;> simp [s3_test_connection, s3_connect]

/-- A predicate the backend rejects as malformed: its parse always fails
with `DbError.malformed` (the spec's `QueryError`). -/
def failPredicate : String → Except DbError (Row → Bool) :=
  fun _ => Except.error DbError.malformed

/-- C8 (counterexample): with a malformed predicate over a one-row object,
the S3 provider's `delete_rows` catches the predicate failure and returns
the success value `0` with the object rewritten unchanged — it does not
propagate the fault — while the SQLite provider propagates it. -/
theorem s3_delete_swallows_C8_counterexample :
    s3_delete_rows failPredicate [("t", [["x"]])] "t" (some "nonsense ((")
      = Except.ok (0, [("t", [["x"]])]) ∧
    sqlite_delete_rows failPredicate [("t", [["x"]])] "t" (some "nonsense ((")
      = Except.error DbError.malformed :=
  ⟨rfl, rfl⟩

/-- C8 (amended): a malformed predicate passed to `delete_rows` propagates
unmodified from the SQL-backed SQLite provider, but the S3 provider
catches the predicate-evaluation failure and converts it into the success
return `0`, leaving the object's rows unchanged. -/
theorem delete_rows_faults_C8_amended (pe : String → Except DbError (Row → Bool))
    (st : Store) (name wc : String) (df : Table) (e : DbError)
    (hdf : getTable st name = some df) (hne : df ≠ [])
    (hwc : whereGiven (some wc) = true) (hpe : pe wc = Except.error e) :
    sqlite_delete_rows pe st name (some wc) = Except.error e ∧
    s3_delete_rows pe st name (some wc) = Except.ok (0, setTable st name df) := by
  constructor
  · simp [sqlite_delete_rows, hdf, hwc, hpe]
  · simp [s3_delete_rows, hdf, hne, hwc, hpe]

theorem delete_rows_faults_C8_amended_witness :
    getTable [("t", [["x"]])] "t" = some [["x"]] ∧
    ([["x"]] : Table) ≠ [] ∧
    whereGiven (some "nonsense ((") = true ∧
    failPredicate "nonsense ((" = Except.error DbError.malformed ∧
    sqlite_delete_rows failPredicate [("t", [["x"]])] "t" (some "nonsense ((")
      = Except.error DbError.malformed :=
  ⟨rfl, by decide, rfl, rfl,
    (delete_rows_faults_C8_amended failPredicate [("t", [["x"]])] "t"
      "nonsense ((" [["x"]] DbError.malformed rfl (by decide) rfl rfl).1⟩

/-- C9: no provider operation mutates the credentials bundle passed to the
provider's constructor: every operation of the capability contract leaves
the `credentials` field of the provider state unchanged. -/
theorem provider_frame_C9 (sysOk probeOk touchOk listOk : Bool)
    (acts : List String) (store : Store) (name : String) (w : Option String)
    (df : Table) (m : WriteMode) (lim : Option Nat)
    (pe : String → Except DbError (Row → Bool)) (s : SQLiteState) (t : S3State) :
    ((sqlite_test_connection sysOk probeOk s).2.credentials = s.credentials) ∧
    (∀ s2, sqlite_connect sysOk s = Except.ok s2 → s2.credentials = s.credentials) ∧
    ((sqlite_has_permissions touchOk acts s).2.credentials = s.credentials) ∧
    ((sqlite_list_datasets s).2.credentials = s.credentials) ∧
    ((sqlite_list_tables store s).2.credentials = s.credentials) ∧
    ((sqlite_read_table store name lim s).2.credentials = s.credentials) ∧
    ((sqlite_write_table_op store name df m s).2.credentials = s.credentials) ∧
    ((sqlite_delete_rows_op pe store name w s).2.credentials = s.credentials) ∧
    ((sqlite_delete_table_op store name s).2.credentials = s.credentials) ∧
    ((sqlite_close s).2.credentials = s.credentials) ∧
    ((s3_connect listOk t).2.credentials = t.credentials) ∧
    ((s3_test_connection listOk t).2.credentials = t.credentials) := by
  refine ⟨?_, ?_, rfl, rfl, rfl, rfl, rfl, rfl, rfl, rfl, ?_, ?_⟩
  · cases hdb : s.db_path with
    | none => simp [sqlite_test_connection, sqlite_connect, hdb]
    | some p =>
      cases sysOk <;> cases probeOk <;>
        simp [sqlite_test_connection, sqlite_connect, hdb]
  · intro s2 h
    cases hdb : s.db_path with
    | none => simp [sqlite_connect, hdb] at h
    | some p =>
      by_cases hs : sysOk
      · simp [sqlite_connect, hdb, hs] at h
        subst h
        rfl
      · simp [sqlite_connect, hdb, hs] at h
  · cases listOk <;> rfl
  · cases listOk <;> rfl

theorem provider_frame_C9_witness :
    (sqlite_test_connection true true (sqlite_init [("db_path", "d")])).2.credentials
      = (sqlite_init [("db_path", "d")]).credentials :=
  (provider_frame_C9 true true true true [] [] "t" none [] WriteMode.append none
    failPredicate (sqlite_init [("db_path", "d")]) ⟨[], none, false⟩).1

/-- C10: when the table read back by `apply_corrections` is empty, the
function returns `0` and makes no further provider calls — in particular
no `delete_table` and no `write_table` — leaving the empty table
untouched. -/
theorem apply_corrections_empty_C10 (name : String) :
    apply_corrections name [] = (0, []) := rfl

end MigrationVerifier
